import Mathlib

/-!
Verification of the electrical-device registry program (`src/main.cpp`).

The program is a small single-threaded C++ application:

* a device hierarchy (`AbstractElectricDevice` → `HomeAppliance`/`PowerTool`
  → `Refrigerator`/`Drill`) with a name, a rated power, an on/off flag and
  variant-specific fields;
* two device factories producing fixed configurations;
* a registry `DeviceManager` storing devices in a `std::vector`, with
  `AddDevice`, `TurnOnAll`, `GetTotalPower` and `GetDevices`, logging every
  mutating operation through an injected logger;
* a `LoggerFactory` selecting a console or file logger by an enumerated tag.

We give a shallow embedding: C++ `double` values are modelled as exact
rationals (ℚ); the logger side effect is modelled as the list of messages the
registry has handed to its logger, in order.
-/

/-- Mimics `std::to_string(int)` for the values this program uses. -/
def cppIntToString (i : Int) : String :=
  toString i

/-- Left-pads the decimal rendering of `n` with zeros up to six digits,
used for the fractional part of `%f` formatting. -/
def padSix (n : Nat) : String :=
  let s := toString n
  String.mk (List.replicate (6 - s.length) '0') ++ s

/-- Mimics `std::to_string(double)` (i.e. `sprintf "%f"`: six fractional
digits, rounding to nearest) on the exact rational model of the C++
`double`: the value scaled by `10^6` and rounded is rendered as integer
part, a dot, and six fractional digits. Works on the reduced
numerator/denominator so the whole computation is plain `Nat`/`Int`
arithmetic. -/
def cppDoubleToString (q : ℚ) : String :=
  if q.num < 0 then
    let scaled : Nat := ((-q.num).toNat * 1000000 + q.den / 2) / q.den
    "-" ++ toString (scaled / 1000000) ++ "." ++ padSix (scaled % 1000000)
  else
    let scaled : Nat := (q.num.toNat * 1000000 + q.den / 2) / q.den
    toString (scaled / 1000000) ++ "." ++ padSix (scaled % 1000000)

/-- The variant-specific data of the concrete device classes:
`Refrigerator` adds `_brand` (via `HomeAppliance`) and `_capacity`;
`Drill` adds `_voltage` (via `PowerTool`) and `_rpm`. -/
inductive DeviceKind where
  | refrigerator (brand : String) (capacity : ℚ)
  | drill (voltage : ℚ) (rpm : Int)
  deriving DecidableEq, Repr

/-- A device object: the fields `_name`, `_power`, `_isOn` of
`AbstractElectricDevice` plus the concrete variant's own fields. -/
structure Device where
  name : String
  power : ℚ
  isOn : Bool
  kind : DeviceKind
  deriving DecidableEq, Repr

namespace Device

/-- `AbstractElectricDevice::AbstractElectricDevice(name, power)`:
initialises `_isOn` to `false` (src/main.cpp:67-68). Every concrete
constructor chains down to this one. -/
def baseInit (name : String) (power : ℚ) (kind : DeviceKind) : Device :=
  { name := name, power := power, isOn := false, kind := kind }

/-- `Refrigerator::Refrigerator(name, power, brand, capacity)`
(src/main.cpp:103-104), chaining through `HomeAppliance` to the base. -/
def mkRefrigerator (name : String) (power : ℚ) (brand : String)
    (capacity : ℚ) : Device :=
  baseInit name power (.refrigerator brand capacity)

/-- `Drill::Drill(name, power, voltage, rpm)` (src/main.cpp:119-120),
chaining through `PowerTool` to the base. -/
def mkDrill (name : String) (power : ℚ) (voltage : ℚ) (rpm : Int) : Device :=
  baseInit name power (.drill voltage rpm)

/-- `AbstractElectricDevice::TurnOn()` (src/main.cpp:70). -/
def turnOn (d : Device) : Device := { d with isOn := true }

/-- `AbstractElectricDevice::TurnOff()` (src/main.cpp:71). -/
def turnOff (d : Device) : Device := { d with isOn := false }

/-- `AbstractElectricDevice::GetPower()` (src/main.cpp:72):
`_isOn ? _power : 0`. -/
def getPower (d : Device) : ℚ := if d.isOn then d.power else 0

/-- `GetInfo()` of the concrete classes: `Refrigerator::GetInfo`
(src/main.cpp:106-110) and `Drill::GetInfo` (src/main.cpp:122-126). -/
def getInfo (d : Device) : String :=
  match d.kind with
  | .refrigerator brand capacity =>
      "Refrigerator: " ++ d.name ++ ", Brand: " ++ brand ++
        ", Capacity: " ++ cppDoubleToString capacity ++ "L, Power: " ++
        cppDoubleToString d.power
  | .drill voltage rpm =>
      "Drill: " ++ d.name ++ ", Voltage: " ++ cppDoubleToString voltage ++
        "V, RPM: " ++ cppIntToString rpm ++ ", Power: " ++
        cppDoubleToString d.power

end Device

/-- `RefrigeratorFactory::Create()` (src/main.cpp:141-144):
`Refrigerator("Samsung Fridge", 150, "Samsung", 300)`. -/
def RefrigeratorFactory.create : Device :=
  Device.mkRefrigerator "Samsung Fridge" 150 "Samsung" 300

/-- `DrillFactory::Create()` (src/main.cpp:150-153):
`Drill("Bosch Drill", 800, 220, 3000)`. -/
def DrillFactory.create : Device :=
  Device.mkDrill "Bosch Drill" 800 220 3000

/-- The registry state: the `_devices` vector plus the sequence of messages
the registry has passed to its `_logger` so far, in program order. -/
structure DeviceManager where
  devices : List Device
  log : List String
  deriving DecidableEq, Repr

namespace DeviceManager

/-- A freshly constructed `DeviceManager` (src/main.cpp:164): no devices,
nothing logged yet. -/
def fresh : DeviceManager := { devices := [], log := [] }

/-- `DeviceManager::AddDevice(device)` (src/main.cpp:166-169): logs
`"Добавлено устройство: " + device->GetInfo()` then pushes the device onto
the back of `_devices`. -/
def addDevice (m : DeviceManager) (d : Device) : DeviceManager :=
  { devices := m.devices ++ [d],
    log := m.log ++ ["Добавлено устройство: " ++ d.getInfo] }

/-- The loop body of `DeviceManager::TurnOnAll` (src/main.cpp:171-177),
over the remaining devices: each device is turned on in place, then
`"Включено: " + device->GetInfo()` is logged, in insertion order. Returns
the updated devices and the emitted log lines. -/
def turnOnAllGo : List Device → List Device × List String
  | [] => ([], [])
  | d :: rest =>
      let d2 := d.turnOn
      let (ds, msgs) := turnOnAllGo rest
      (d2 :: ds, ("Включено: " ++ d2.getInfo) :: msgs)

/-- `DeviceManager::TurnOnAll()` (src/main.cpp:171-177). -/
def turnOnAll (m : DeviceManager) : DeviceManager :=
  let (ds, msgs) := turnOnAllGo m.devices
  { devices := ds, log := m.log ++ msgs }

/-- `DeviceManager::GetTotalPower()` (src/main.cpp:179-186): accumulates
`device->GetPower()` over `_devices` starting from `total = 0`. -/
def getTotalPower (m : DeviceManager) : ℚ :=
  m.devices.foldl (fun total d => total + d.getPower) 0

/-- `DeviceManager::GetDevices()` (src/main.cpp:188-191): returns (a
read-only view of) `_devices`. -/
def getDevices (m : DeviceManager) : List Device :=
  m.devices

/-- Runs a sequence of `addDevice` calls, in order (left to right). -/
def addAll (m : DeviceManager) (ds : List Device) : DeviceManager :=
  ds.foldl addDevice m

end DeviceManager

/- `LoggerFactory::LoggerType` (src/main.cpp:47) is a plain C++ enum; we
model the tag by its underlying integer so that unrecognized values exist. -/
namespace LoggerFactory

/-- The enumerator `Console` of `LoggerFactory::LoggerType`. -/
def consoleTag : Int := 0

/-- The enumerator `File` of `LoggerFactory::LoggerType`. -/
def fileTag : Int := 1

/-- The logger object returned by the factory: a `ConsoleLogger`, or a
`FileLogger` opened on the given path. -/
inductive LoggerObj where
  | console
  | file (path : String)
  deriving DecidableEq, Repr

/-- `LoggerFactory::CreateLogger(type)` (src/main.cpp:50-54): returns a
`ConsoleLogger` for `Console`, a `FileLogger("log.txt")` for `File`, and
`nullptr` (modelled as `none`) for any other tag value. -/
def createLogger (type : Int) : Option LoggerObj :=
  if type = consoleTag then some .console
  else if type = fileTag then some (.file "log.txt")
  else none

end LoggerFactory

/-- A single `turnOn`/`turnOff` call on a device. -/
inductive ToggleCall where
  | on
  | off
  deriving DecidableEq, Repr

/-- Applies one `turnOn`/`turnOff` call to a device. -/
def applyToggle (d : Device) : ToggleCall → Device
  | .on => d.turnOn
  | .off => d.turnOff

/-- Applies a finite sequence of `turnOn`/`turnOff` calls, in order. -/
def applyToggles (d : Device) (calls : List ToggleCall) : Device :=
  calls.foldl applyToggle d

/-- The pattern of `main()` (src/main.cpp:223-249): add a list of devices to
a fresh registry, then call `TurnOnAll`. -/
def addThenTurnOnAll (ds : List Device) : DeviceManager :=
  (DeviceManager.addAll DeviceManager.fresh ds).turnOnAll

/-- The message `AddDevice` hands to the logger for device `d`. -/
def addedMsg (d : Device) : String :=
  "Добавлено устройство: " ++ d.getInfo

/-- The message `TurnOnAll` hands to the logger for device `d`. -/
def turnedOnMsg (d : Device) : String :=
  "Включено: " ++ d.getInfo

lemma Device.getInfo_turnOn (d : Device) : d.turnOn.getInfo = d.getInfo := rfl

lemma Device.power_turnOn (d : Device) : d.turnOn.power = d.power := rfl

lemma DeviceManager.turnOnAllGo_eq (ds : List Device) :
    DeviceManager.turnOnAllGo ds = (ds.map Device.turnOn, ds.map turnedOnMsg) := by
  induction ds with
  | nil => rfl
  | cons d rest ih =>
      simp [DeviceManager.turnOnAllGo, ih, turnedOnMsg, Device.getInfo_turnOn]

lemma DeviceManager.devices_turnOnAll (m : DeviceManager) :
    m.turnOnAll.devices = m.devices.map Device.turnOn := by
  simp [DeviceManager.turnOnAll, DeviceManager.turnOnAllGo_eq]

lemma DeviceManager.log_turnOnAll (m : DeviceManager) :
    m.turnOnAll.log = m.log ++ m.devices.map turnedOnMsg := by
  simp [DeviceManager.turnOnAll, DeviceManager.turnOnAllGo_eq]

lemma DeviceManager.devices_addAll (m : DeviceManager) (ds : List Device) :
    (m.addAll ds).devices = m.devices ++ ds := by
  induction ds generalizing m with
  | nil => simp [DeviceManager.addAll]
  | cons d rest ih =>
      simp [DeviceManager.addAll] at ih ⊢
      rw [ih]
      simp [DeviceManager.addDevice]

lemma DeviceManager.log_addAll (m : DeviceManager) (ds : List Device) :
    (m.addAll ds).log = m.log ++ ds.map addedMsg := by
  induction ds generalizing m with
  | nil => simp [DeviceManager.addAll]
  | cons d rest ih =>
      simp [DeviceManager.addAll] at ih ⊢
      rw [ih]
      simp [DeviceManager.addDevice, addedMsg]

lemma foldl_add_getPower (ds : List Device) (a : ℚ) :
    ds.foldl (fun total d => total + d.getPower) a =
      a + (ds.map Device.getPower).sum := by
  induction ds generalizing a with
  | nil => simp
  | cons d rest ih => simp [ih, add_assoc]

lemma applyToggles_power (d : Device) (calls : List ToggleCall) :
    (applyToggles d calls).power = d.power := by
  induction calls generalizing d with
  | nil => rfl
  | cons c rest ih =>
      cases c <;>
        simp [applyToggles, List.foldl_cons, applyToggle, Device.turnOn,
          Device.turnOff] at ih ⊢ <;>
        exact ih _

lemma addedMsg_ne_turnedOnMsg (d e : Device) : addedMsg d ≠ turnedOnMsg e := by
  intro h
  have h2 : (addedMsg d).data = (turnedOnMsg e).data := congrArg String.data h
  have hd : (addedMsg d).data = 'Д' :: ("обавлено устройство: " ++ d.getInfo).data := rfl
  have he : (turnedOnMsg e).data = 'В' :: ("ключено: " ++ e.getInfo).data := rfl
  rw [hd, he] at h2
  injection h2 with h3 h4
  exact absurd h3 (by decide)

/-- Claim C1: for every device and after every finite sequence of
`turnOn`/`turnOff` calls, `getPower()` returns the rated power (the `_power`
fixed at construction) when `_isOn` is true and returns zero when it is
false. -/
theorem claim_C1_getPower_after_toggles (d : Device) (calls : List ToggleCall) :
    (applyToggles d calls).getPower =
      if (applyToggles d calls).isOn then d.power else 0 := by
  rw [Device.getPower, applyToggles_power]

/-- Claim C2: for every registry state, `getTotalPower()` equals the sum of
`getPower()` over the contained devices in insertion order, and it is zero
when the registry contains no devices. -/
theorem claim_C2_totalPower_eq_sum (m : DeviceManager) :
    m.getTotalPower = (m.getDevices.map Device.getPower).sum ∧
    (m.getDevices = [] → m.getTotalPower = 0) := by
  constructor
  · rw [DeviceManager.getTotalPower, foldl_add_getPower, zero_add]
    rfl
  · intro h
    rw [DeviceManager.getDevices] at h
    rw [DeviceManager.getTotalPower, h]
    rfl

/-- Witness for claim C2 at the empty registry. -/
theorem claim_C2_witness : DeviceManager.fresh.getTotalPower = 0 :=
  (claim_C2_totalPower_eq_sum DeviceManager.fresh).2 rfl

set_option maxRecDepth 100000 in
/-- Claim C3: in the concrete `main()` scenario — a
`Refrigerator("Samsung Fridge", 150, "Samsung", 300)` and a
`Drill("Bosch Drill", 800, 220, 3000)` are added and `TurnOnAll()` is
called — `GetTotalPower()` returns 950; the refrigerator's `GetInfo()`
string contains "Samsung Fridge", "Samsung", "300" and "150"; the drill's
`GetInfo()` string contains "Bosch Drill", "220", "3000" and "800". -/
theorem claim_C3_concrete_scenario :
    (addThenTurnOnAll [RefrigeratorFactory.create, DrillFactory.create]).getTotalPower = 950 ∧
    List.IsInfix "Samsung Fridge".data RefrigeratorFactory.create.getInfo.data ∧
    List.IsInfix "Samsung".data RefrigeratorFactory.create.getInfo.data ∧
    List.IsInfix "300".data RefrigeratorFactory.create.getInfo.data ∧
    List.IsInfix "150".data RefrigeratorFactory.create.getInfo.data ∧
    List.IsInfix "Bosch Drill".data DrillFactory.create.getInfo.data ∧
    List.IsInfix "220".data DrillFactory.create.getInfo.data ∧
    List.IsInfix "3000".data DrillFactory.create.getInfo.data ∧
    List.IsInfix "800".data DrillFactory.create.getInfo.data := by
  refine ⟨?_, ?_, ?_, ?_, ?_, ?_, ?_, ?_, ?_⟩
  · simp [addThenTurnOnAll, DeviceManager.turnOnAll, DeviceManager.addAll,
      DeviceManager.addDevice, DeviceManager.fresh, DeviceManager.turnOnAllGo,
      DeviceManager.getTotalPower, Device.getPower, Device.turnOn,
      RefrigeratorFactory.create, DrillFactory.create, Device.mkRefrigerator,
      Device.mkDrill, Device.baseInit]
    norm_num
  all_goals decide

/-- Claim C4: for every finite sequence of `addDevice` calls on a fresh
registry, `getDevices()` returns exactly the devices added, in the order
they were added and with the same count; `addDevice` appends to the end of
the sequence. -/
theorem claim_C4_getDevices_insertion_order (ds : List Device) :
    (DeviceManager.addAll DeviceManager.fresh ds).getDevices = ds ∧
    (DeviceManager.addAll DeviceManager.fresh ds).getDevices.length = ds.length ∧
    ∀ (m : DeviceManager) (d : Device),
      (m.addDevice d).getDevices = m.getDevices ++ [d] := by
  have h : (DeviceManager.addAll DeviceManager.fresh ds).getDevices = ds := by
    simp [DeviceManager.getDevices, DeviceManager.devices_addAll, DeviceManager.fresh]
  exact ⟨h, by rw [h], fun m d => rfl⟩

/-- Claim C5: `turnOnAll()` visits the devices in insertion order, turning
each on and logging `"Включено: "` concatenated with that device's
`GetInfo()` string; the log lines are appended in insertion order. -/
theorem claim_C5_turnOnAll_logs_in_order (m : DeviceManager) :
    m.turnOnAll.getDevices = m.getDevices.map Device.turnOn ∧
    m.turnOnAll.log = m.log ++ m.getDevices.map (fun d => "Включено: " ++ d.getInfo) := by
  constructor
  · simp [DeviceManager.getDevices, DeviceManager.devices_turnOnAll]
  · simpa [DeviceManager.getDevices, turnedOnMsg] using DeviceManager.log_turnOnAll m

/-- Claim C6: `turnOnAll()` is idempotent on device state — calling it twice
leaves every device exactly as calling it once does (the second call only
re-emits the log lines). -/
theorem claim_C6_turnOnAll_idempotent (m : DeviceManager) :
    m.turnOnAll.turnOnAll.getDevices = m.turnOnAll.getDevices ∧
    m.turnOnAll.turnOnAll.log =
      m.turnOnAll.log ++ m.getDevices.map (fun d => "Включено: " ++ d.getInfo) := by
  constructor
  · simp only [DeviceManager.getDevices, DeviceManager.devices_turnOnAll, List.map_map]
    congr 1
  · rw [DeviceManager.log_turnOnAll m.turnOnAll, DeviceManager.devices_turnOnAll,
      List.map_map]
    simp [DeviceManager.getDevices, turnedOnMsg, Function.comp, Device.getInfo_turnOn]

/-- Claim C7: in an add-then-`turnOnAll` run, each `addDevice` emits exactly
one `"Добавлено устройство: "` message at add time (the i-th log entry, in
add order), and every `"Включено: "` entry for a contained device sits at an
index strictly greater than every add index, i.e. each device's "added"
message appears strictly before any "turned on" message. -/
theorem claim_C7_added_before_turnedOn (ds : List Device) :
    (addThenTurnOnAll ds).log = ds.map addedMsg ++ ds.map turnedOnMsg ∧
    ∀ k (hk : k < (addThenTurnOnAll ds).log.length),
      (∃ d ∈ ds, (addThenTurnOnAll ds).log.get ⟨k, hk⟩ = turnedOnMsg d) →
      ∀ i, i < ds.length → i < k := by
  have hlog : (addThenTurnOnAll ds).log = ds.map addedMsg ++ ds.map turnedOnMsg := by
    rw [addThenTurnOnAll, DeviceManager.log_turnOnAll, DeviceManager.log_addAll,
      DeviceManager.devices_addAll]
    simp [DeviceManager.fresh]
  refine ⟨hlog, ?_⟩
  intro k hk hex i hi
  rcases hex with ⟨d, hd, hmsg⟩
  rcases Nat.lt_or_ge k ds.length with hklt | hge
  · exfalso
    have hk2 : k < (ds.map addedMsg).length := by simpa using hklt
    have h3 := List.get_of_eq hlog ⟨k, hk⟩
    rw [hmsg] at h3
    rw [List.get_append _ hk2, List.get_map] at h3
    exact addedMsg_ne_turnedOnMsg _ d h3.symm
  · omega

/-- Witness for claim C7: one refrigerator; its "added" entry is at index 0,
the "turned on" entry at index 1, so the add strictly precedes it. -/
theorem claim_C7_witness :
    (addThenTurnOnAll [RefrigeratorFactory.create]).log =
      [RefrigeratorFactory.create].map addedMsg ++
        [RefrigeratorFactory.create].map turnedOnMsg ∧ (0 : Nat) < 1 :=
  ⟨(claim_C7_added_before_turnedOn [RefrigeratorFactory.create]).1,
   (claim_C7_added_before_turnedOn [RefrigeratorFactory.create]).2 1 (by decide)
     ⟨RefrigeratorFactory.create, by decide, by decide⟩ 0 (by decide)⟩

/-- Claim C8: the logger selector returns a console logger for the `Console`
tag, a file logger for the `File` tag, and `none` (the null reference) for
any unrecognized tag value. -/
theorem claim_C8_createLogger (t : Int) :
    LoggerFactory.createLogger LoggerFactory.consoleTag =
      some LoggerFactory.LoggerObj.console ∧
    LoggerFactory.createLogger LoggerFactory.fileTag =
      some (LoggerFactory.LoggerObj.file "log.txt") ∧
    (t ≠ LoggerFactory.consoleTag → t ≠ LoggerFactory.fileTag →
      LoggerFactory.createLogger t = none) := by
  refine ⟨rfl, rfl, ?_⟩
  intro h1 h2
  simp [LoggerFactory.createLogger, h1, h2]

/-- Witness for claim C8 at the unrecognized tag value 5. -/
theorem claim_C8_witness :
    LoggerFactory.createLogger LoggerFactory.consoleTag =
      some LoggerFactory.LoggerObj.console ∧
    LoggerFactory.createLogger 5 = none :=
  ⟨(claim_C8_createLogger 5).1,
   (claim_C8_createLogger 5).2.2 (by decide) (by decide)⟩

/-- Claim C9: every constructor chain initialises `_isOn` to `false`, so a
freshly constructed device (from either factory or either concrete
constructor, with any parameters) has `getPower() = 0`, and a registry to
which only freshly constructed (still off) devices have been added has
`getTotalPower() = 0`. -/
theorem claim_C9_devices_start_off (name brand : String)
    (power capacity voltage : ℚ) (rpm : Int) (ds : List Device) :
    (Device.mkRefrigerator name power brand capacity).isOn = false ∧
    (Device.mkDrill name power voltage rpm).isOn = false ∧
    (Device.mkRefrigerator name power brand capacity).getPower = 0 ∧
    (Device.mkDrill name power voltage rpm).getPower = 0 ∧
    RefrigeratorFactory.create.getPower = 0 ∧
    DrillFactory.create.getPower = 0 ∧
    ((∀ d ∈ ds, d.isOn = false) →
      (DeviceManager.addAll DeviceManager.fresh ds).getTotalPower = 0) := by
  refine ⟨rfl, rfl, rfl, rfl, rfl, rfl, ?_⟩
  intro hoff
  have hdev : (DeviceManager.addAll DeviceManager.fresh ds).devices = ds := by
    simp [DeviceManager.devices_addAll, DeviceManager.fresh]
  rw [DeviceManager.getTotalPower, hdev, foldl_add_getPower, zero_add]
  apply List.sum_eq_zero
  intro q hq
  rcases List.mem_map.mp hq with ⟨d, hd, hqd⟩
  rw [← hqd]
  simp [Device.getPower, hoff d hd]

/-- Witness for claim C9: the two factory devices, freshly added, give a
total power of zero. -/
theorem claim_C9_witness :
    (DeviceManager.addAll DeviceManager.fresh
      [RefrigeratorFactory.create, DrillFactory.create]).getTotalPower = 0 :=
  (claim_C9_devices_start_off "n" "b" 0 0 0 0
    [RefrigeratorFactory.create, DrillFactory.create]).2.2.2.2.2.2 (by decide)

/-- Claim C10: `turnOnAll()` only flips `_isOn` to true: the device count
(and order) is unchanged, and each device keeps its name, rated power and
variant-specific fields (`brand`/`capacity`/`voltage`/`rpm`, carried by
`kind`). -/
theorem claim_C10_turnOnAll_frame (m : DeviceManager) :
    m.turnOnAll.getDevices.length = m.getDevices.length ∧
    ∀ i (hi : i < m.getDevices.length) (hi2 : i < m.turnOnAll.getDevices.length),
      (m.turnOnAll.getDevices.get ⟨i, hi2⟩).name = (m.getDevices.get ⟨i, hi⟩).name ∧
      (m.turnOnAll.getDevices.get ⟨i, hi2⟩).power = (m.getDevices.get ⟨i, hi⟩).power ∧
      (m.turnOnAll.getDevices.get ⟨i, hi2⟩).kind = (m.getDevices.get ⟨i, hi⟩).kind ∧
      (m.turnOnAll.getDevices.get ⟨i, hi2⟩).isOn = true := by
  have hdev : m.turnOnAll.getDevices = m.getDevices.map Device.turnOn := by
    simp [DeviceManager.getDevices, DeviceManager.devices_turnOnAll]
  constructor
  · rw [hdev, List.length_map]
  · intro i hi hi2
    have hget : m.turnOnAll.getDevices.get ⟨i, hi2⟩ =
        (m.getDevices.get ⟨i, hi⟩).turnOn := by
      rw [List.get_of_eq hdev ⟨i, hi2⟩, List.get_map]
    rw [hget]
    exact ⟨rfl, rfl, rfl, rfl⟩

/-- Witness for claim C10: one drill, index 0. -/
theorem claim_C10_witness :
    (DeviceManager.addAll DeviceManager.fresh
        [DrillFactory.create]).turnOnAll.getDevices.length =
      (DeviceManager.addAll DeviceManager.fresh
        [DrillFactory.create]).getDevices.length ∧
    ((DeviceManager.addAll DeviceManager.fresh
        [DrillFactory.create]).turnOnAll.getDevices.get ⟨0, by decide⟩).isOn = true :=
  ⟨(claim_C10_turnOnAll_frame
      (DeviceManager.addAll DeviceManager.fresh [DrillFactory.create])).1,
   ((claim_C10_turnOnAll_frame
      (DeviceManager.addAll DeviceManager.fresh [DrillFactory.create])).2
      0 (by decide) (by decide)).2.2.2⟩
